import Mathlib

/-!
Verification development for the 6-axis robotic-arm telemetry protocol
(`analyseur_telemetrie.cpp` / `simulateur_telemetrie.cpp`).

Shallow embedding conventions:
* machine integers become `Nat` / `Int` with explicit reductions modulo `2^w`
  where the C code truncates (`static_cast<uint16_t>`, `uint8_t` sequence);
* `float` arithmetic is modelled exactly over `ℚ`: every quantity handled by
  the programs (unit conversions by 100 / 10 / 1000, proportional control,
  clamping) is a ratio of machine numbers and the properties proved here are
  order/clamp facts that do not depend on rounding;
* the pseudo-random draws of the simulator (`std::mt19937` through the
  `uniform_*` / `normal` distributions) are passed in as explicit arguments;
* raw byte buffers become `List Nat` (each element a byte value), and the C
  pattern "pointer + length" with possible out-of-bounds reads becomes a total
  memory function `Nat → Nat` together with the buffer size, so that reads
  past the end are visible as dependencies on bytes outside `[0, taille)`.

Functions that exist in the sources keep their source names.  Bodies that the
analyzer leaves as empty `TODO` stubs (`decoder_trame`, the scan loop of
`main`, the loss estimator of `ecrire_statistiques`, the statistics update of
`analyser_trame`) are modelled from the specification; each such definition
carries a doc comment starting with `Modelled from the spec:`.
-/

-- ============================================================================
-- Protocol constants (analyseur_telemetrie.cpp, lines 35-40)
-- ============================================================================

def SYNC_H : Nat := 0xAA

def SYNC_L : Nat := 0x55

def NB_AXES : Nat := 6

def TAILLE_AXE : Nat := 6

def TAILLE_ENTETE : Nat := 3

def TAILLE_TRAME : Nat := TAILLE_ENTETE + NB_AXES * TAILLE_AXE

-- ============================================================================
-- Data structures (analyseur_telemetrie.cpp, lines 49-75)
-- ============================================================================

/-- `struct DonneesAxe` of the analyzer: `position` and `vitesse` are
`int16_t` (values in `[-32768, 32768)`), `courant` is `uint16_t`
(values in `[0, 65536)`). -/
structure DonneesAxe where
  position : Int
  vitesse : Int
  courant : Nat
deriving DecidableEq, Repr

/-- `struct Trame` exactly as the analyzer source declares it: the two sync
bytes, the sequence byte, and TWO arrays `axe1[NB_AXES]` and `axe2[NB_AXES]`
of `DonneesAxe` (the duplicated array is literally what the source says). -/
structure Trame where
  sync1 : Nat
  sync2 : Nat
  sequence : Nat
  axe1 : Fin 6 → DonneesAxe
  axe2 : Fin 6 → DonneesAxe

/-- All `DonneesAxe` values stored in one `Trame` record, in declaration
order: the `axe1` array followed by the `axe2` array. -/
def Trame.echantillons (t : Trame) : List DonneesAxe :=
  List.ofFn t.axe1 ++ List.ofFn t.axe2

/-- `struct Statistiques` of the analyzer with its member initializers. -/
structure Statistiques where
  octets_lus : Nat := 0
  trames_valides : Nat := 0
  trames_alerte : Nat := 0
  sequence_min : Nat := 255
  sequence_max : Nat := 0
  octets_bruit : Nat := 0
deriving DecidableEq, Repr

-- ============================================================================
-- Unit conversions (analyseur_telemetrie.cpp, lines 87-115)
-- ============================================================================

/-- `position_en_degres`: raw hundredths of a degree to degrees. -/
def position_en_degres (brut : Int) : ℚ := (brut : ℚ) / 100

/-- `vitesse_en_deg_s`: raw tenths of a degree per second to degrees/second. -/
def vitesse_en_deg_s (brut : Int) : ℚ := (brut : ℚ) / 10

/-- `courant_en_amperes`: raw milliamperes to amperes. -/
def courant_en_amperes (brut : Nat) : ℚ := (brut : ℚ) / 1000

-- ============================================================================
-- est_en_alerte (analyseur_telemetrie.cpp, lines 201-211)
-- ============================================================================

/-- `est_en_alerte` exactly as the source writes it: it compares the RAW
`courant` field (milliamperes, promoted to floating point) against `seuil`
(amperes) — the source never calls `courant_en_amperes` here. -/
def est_en_alerte (axe : DonneesAxe) (seuil : ℚ) : Bool :=
  if (axe.courant : ℚ) > seuil then true else false

/-- Default alert threshold of the analyzer (`seuil_courant = 5.0f` in
`main`), in amperes. -/
def SEUIL_DEFAUT : ℚ := 5

-- ============================================================================
-- trame_valide (analyseur_telemetrie.cpp, lines 158-169)
-- ============================================================================

/-- Value of `sizeof(trame)` inside `trame_valide`, where `trame` has type
`const Trame*`: the size of a pointer on the 64-bit target, i.e. 8 bytes
(and on no real target 39). -/
def TAILLE_POINTEUR : Nat := 8

/-- `trame_valide` exactly as the source writes it: the sync-byte checks plus
the conjunct `sizeof(trame) == 39`, where `trame` is a pointer. -/
def trame_valide (t : Trame) : Bool :=
  if t.sync1 = 0xAA ∧ t.sync2 = 0x55 ∧ TAILLE_POINTEUR = 39 then true else false

-- ============================================================================
-- trouver_sync (analyseur_telemetrie.cpp, lines 133-147)
-- ============================================================================

/-- Loop body of `trouver_sync`.  The memory is a total function `Nat → Nat`
(byte at each address); the buffer occupies addresses `[0, taille)`.  The
fuel argument is `taille - i`, so that `fuel = 0` is exactly the loop exit
condition `i ≥ taille`; inside the loop the source reads `buffer[i]` AND
`buffer[i+1]` without checking that `i+1 < taille`. -/
def trouver_sync_boucle (mem : Nat → Nat) : Nat → Nat → Int
  | 0, _ => -1
  | fuel + 1, i =>
    if mem i = SYNC_H ∧ mem (i + 1) = SYNC_L then (i : Int)
    else trouver_sync_boucle mem fuel (i + 1)

/-- `trouver_sync` as the source writes it: scan from `debut` while
`i < taille`, testing `buffer[i]` and `buffer[i+1]`. -/
def trouver_sync (mem : Nat → Nat) (taille debut : Nat) : Int :=
  trouver_sync_boucle mem (taille - debut) debut

/-- A 1-byte buffer holding `[0xAA]`, sitting in memory whose next byte
(address 1, OUT of bounds for `taille = 1`) happens to be `0x55`. -/
def memoire_apres_55 : Nat → Nat := fun i => if i = 0 then 0xAA else 0x55

/-- The same 1-byte buffer `[0xAA]`, but the out-of-bounds byte at address 1
is `0x00`. -/
def memoire_apres_00 : Nat → Nat := fun i => if i = 0 then 0xAA else 0x00

-- ============================================================================
-- Frame codec: encode side (simulateur_telemetrie.cpp, lines 174-247)
-- ============================================================================

/-- `ecrire_uint16_le`: write a 16-bit value little-endian (low byte first).
For `valeur < 2^16`, `valeur & 0xFF = valeur % 256` and
`(valeur >> 8) & 0xFF = valeur / 256 % 256`. -/
def ecrire_uint16_le (valeur : Nat) : List Nat :=
  [valeur % 256, valeur / 256 % 256]

/-- `static_cast<uint16_t>` applied to an `int16_t` value: reduction modulo
`2^16` (two's complement). -/
def vers_uint16 (v : Int) : Nat := (v % 65536).toNat

/-- The six data bytes of one axis as `generer_trame` writes them:
position, then velocity, then current, each via `ecrire_uint16_le`. -/
def encoder_axe (a : DonneesAxe) : List Nat :=
  ecrire_uint16_le (vers_uint16 a.position) ++
  ecrire_uint16_le (vers_uint16 a.vitesse) ++
  ecrire_uint16_le (a.courant % 65536)

/-- Per-axis alert override of `generer_trame`: starting at index `i`, the
axis whose index equals `axe_alerte` gets its raw current replaced by
`courant_alerte` (the source compares `static_cast<int>(i) == axe_alerte`,
so a negative `axe_alerte` never matches). -/
def appliquer_alerte_depuis (i : Nat) (axe_alerte : Int) (courant_alerte : Nat) :
    List DonneesAxe → List DonneesAxe
  | [] => []
  | a :: reste =>
    (if (i : Int) = axe_alerte then { a with courant := courant_alerte } else a) ::
      appliquer_alerte_depuis (i + 1) axe_alerte courant_alerte reste

def appliquer_alerte (axes : List DonneesAxe) (axe_alerte : Int)
    (courant_alerte : Nat) : List DonneesAxe :=
  appliquer_alerte_depuis 0 axe_alerte courant_alerte axes

/-- Byte assembly of `generer_trame` (simulateur_telemetrie.cpp, 199-247):
sync bytes, sequence byte, then for each axis its three little-endian 16-bit
fields, with the alert override applied to the chosen axis.  The kinematic
part (`simuler_axe`) and the random draws that choose `axe_alerte` and
`courant_alerte` are factored out as the arguments `axes`, `axe_alerte`,
`courant_alerte`; `axe_alerte = -1` is the no-alert case of the source. -/
def generer_trame (seq : Nat) (axes : List DonneesAxe) (axe_alerte : Int)
    (courant_alerte : Nat) : List Nat :=
  [SYNC_H, SYNC_L, seq % 256] ++
    ((appliquer_alerte axes axe_alerte courant_alerte).map encoder_axe).flatten

/-- Alert-current draw of `generer_trame`: `static_cast<uint16_t>` of a
float drawn from `uniform_real_distribution(5500.0f, 8000.0f)`; the cast
truncates toward zero, and the drawn value is positive, so it is the floor. -/
def courant_alerte_de (r : ℚ) : Nat := (Int.floor r).toNat

-- ============================================================================
-- Frame codec: decode side
-- ============================================================================

/-- `lire_uint16_le`: recombine two little-endian bytes. -/
def lire_uint16_le (b0 b1 : Nat) : Nat := b0 + 256 * b1

/-- Reinterpret a 16-bit value as a signed `int16_t`. -/
def vers_int16 (n : Nat) : Int :=
  if n < 32768 then (n : Int) else (n : Int) - 65536

/-- Modelled from the spec: the spec's `Frame` value (§3) — sync marker,
8-bit sequence, and an ordered sequence of exactly 6 `AxisSample`.  (The
analyzer's own `Trame` struct, embedded above, instead holds two arrays of
6 axes; claim C5 records that divergence, so the codec claims are stated
over this spec-faithful frame value.) -/
structure TrameSpec where
  sync1 : Nat
  sync2 : Nat
  sequence : Nat
  axes : List DonneesAxe
deriving DecidableEq, Repr

/-- All three fields of an axis sample are representable in 16 bits
(§3 `AxisSample` invariant). -/
def AxeRepresentable (a : DonneesAxe) : Prop :=
  -32768 ≤ a.position ∧ a.position < 32768 ∧
  -32768 ≤ a.vitesse ∧ a.vitesse < 32768 ∧ a.courant < 65536

instance (a : DonneesAxe) : Decidable (AxeRepresentable a) := by
  unfold AxeRepresentable; infer_instance

/-- Modelled from the spec: `decoder_trame` — the analyzer source leaves the
body of `decoder_trame` as an empty TODO stub, so the decode mapping is taken
from §4.1/§6: it succeeds iff exactly 39 bytes are supplied, reads the sync
bytes and the sequence verbatim, and for each of the 6 axes reads three
little-endian 16-bit fields in the order position, velocity, current
(position and velocity signed, current unsigned). -/
def decoder_trame : List Nat → Option TrameSpec
  | s1 :: s2 :: s3 ::
     p10 :: p11 :: v10 :: v11 :: c10 :: c11 ::
     p20 :: p21 :: v20 :: v21 :: c20 :: c21 ::
     p30 :: p31 :: v30 :: v31 :: c30 :: c31 ::
     p40 :: p41 :: v40 :: v41 :: c40 :: c41 ::
     p50 :: p51 :: v50 :: v51 :: c50 :: c51 ::
     p60 :: p61 :: v60 :: v61 :: c60 :: c61 :: [] =>
    some { sync1 := s1, sync2 := s2, sequence := s3,
           axes :=
             [⟨vers_int16 (lire_uint16_le p10 p11),
               vers_int16 (lire_uint16_le v10 v11), lire_uint16_le c10 c11⟩,
              ⟨vers_int16 (lire_uint16_le p20 p21),
               vers_int16 (lire_uint16_le v20 v21), lire_uint16_le c20 c21⟩,
              ⟨vers_int16 (lire_uint16_le p30 p31),
               vers_int16 (lire_uint16_le v30 v31), lire_uint16_le c30 c31⟩,
              ⟨vers_int16 (lire_uint16_le p40 p41),
               vers_int16 (lire_uint16_le v40 v41), lire_uint16_le c40 c41⟩,
              ⟨vers_int16 (lire_uint16_le p50 p51),
               vers_int16 (lire_uint16_le v50 v51), lire_uint16_le c50 c51⟩,
              ⟨vers_int16 (lire_uint16_le p60 p61),
               vers_int16 (lire_uint16_le v60 v61), lire_uint16_le c60 c61⟩] }
  | _ => none

-- ============================================================================
-- Stream scanner (spec §4.2 — the analyzer's main loop is an empty TODO)
-- ============================================================================

/-- Modelled from the spec: `find_sync` obeying §4.2 — the lowest index `i`
(relative to the head of the remaining buffer) such that `buffer[i] = 0xAA`
and `buffer[i+1] = 0x55`, scanning only while both `i` and `i+1` are within
bounds; `none` when no such pair exists (including a lone trailing `0xAA`).
The analyzer's own `trouver_sync`, embedded above, instead reads one byte
past the end (claim C3), so the scan loop is modelled on the spec's
in-bounds search. -/
def trouver_sync_spec : List Nat → Option Nat
  | a :: b :: reste =>
    if a = SYNC_H ∧ b = SYNC_L then some 0
    else (trouver_sync_spec (b :: reste)).map (· + 1)
  | _ => none

lemma trouver_sync_spec_borne {buf : List Nat} {s : Nat}
    (h : trouver_sync_spec buf = some s) : s + 1 < buf.length := by
  induction buf generalizing s with
  | nil => simp [trouver_sync_spec] at h
  | cons a reste ih =>
    cases reste with
    | nil => simp [trouver_sync_spec] at h
    | cons b r =>
      rw [trouver_sync_spec] at h
      split at h
      · simp only [Option.some.injEq] at h
        subst h
        simp
      · simp only [Option.map_eq_some'] at h
        obtain ⟨s0, hs0, rfl⟩ := h
        have := ih hs0
        simp at this ⊢
        omega

/-- Modelled from the spec: `extract_frame` (§4.2) — if fewer than 39 bytes
remain starting at `sync_offset`, report insufficient data (`none`);
otherwise decode bytes `[sync_offset, sync_offset + 39)`. -/
def extraire_trame (buf : List Nat) (sync_offset : Nat) : Option TrameSpec :=
  if buf.length - sync_offset < TAILLE_TRAME then none
  else decoder_trame ((buf.drop sync_offset).take TAILLE_TRAME)

/-- Modelled from the spec: the scan loop of §4.2, which the analyzer's
`main` leaves as a TODO.  The cursor into the immutable buffer is
represented by recursing on the remaining suffix: find the next sync pair;
if none, stop (remaining bytes are noise); if fewer than 39 bytes remain
from the sync offset, stop (remaining bytes up to the buffer end are
noise); otherwise count one valid frame, count the skipped prefix as
noise, and continue after the 39 frame bytes.  Returns
`(trames_valides, octets_bruit)`. -/
def boucle_traitement (buf : List Nat) : Nat × Nat :=
  match h : trouver_sync_spec buf with
  | none => (0, buf.length)
  | some s =>
    if TAILLE_TRAME ≤ buf.length - s then
      let r := boucle_traitement (buf.drop (s + TAILLE_TRAME))
      (r.1 + 1, s + r.2)
    else (0, buf.length)
termination_by buf.length
decreasing_by
  have hb := trouver_sync_spec_borne h
  have h39 : TAILLE_TRAME = 39 := rfl
  simp only [List.length_drop]
  omega

/-- The statistics produced by one full scan of a buffer: `octets_lus` is
set to the buffer size exactly as `main` does (`stats.octets_lus =
buffer.size()`), and the scan loop fills `trames_valides` and
`octets_bruit`.  (Alert counting and sequence tracking are handled by the
sequence/alert definitions below.) -/
def analyser_flux (buf : List Nat) : Statistiques :=
  let r := boucle_traitement buf
  { octets_lus := buf.length, trames_valides := r.1, octets_bruit := r.2 }

/-- A buffer containing only well-formed frames separated by non-sync
filler (§8 noise-accounting property): either filler bytes only, or a
filler block, then a 39-byte frame starting with the sync marker, then
again such a buffer.  Filler bytes are "non-sync": never `0xAA` nor
`0x55`. -/
inductive BonFlux : List Nat → Prop where
  | bruit_seul (l : List Nat) (hl : ∀ b ∈ l, b ≠ SYNC_H ∧ b ≠ SYNC_L) : BonFlux l
  | trame_puis (bruit f reste : List Nat)
      (hb : ∀ b ∈ bruit, b ≠ SYNC_H ∧ b ≠ SYNC_L)
      (hf : f.length = TAILLE_TRAME)
      (hf0 : f.get? 0 = some SYNC_H) (hf1 : f.get? 1 = some SYNC_L)
      (hreste : BonFlux reste) : BonFlux (bruit ++ (f ++ reste))

-- ============================================================================
-- Sequence statistics (spec §4.3 — `analyser_trame` statistics update and
-- the loss estimate of `ecrire_statistiques` are TODO stubs)
-- ============================================================================

/-- Modelled from the spec: the `sequence_min`/`sequence_max` update of
`analyze` (§4.3) — plain numeric min/max against the accumulator fields,
with no wraparound correction (the update itself is a TODO in the source's
`analyser_trame`; the accumulator fields and their initial values 255/0
come from `struct Statistiques`). -/
def maj_sequence (stats : Statistiques) (seq : Nat) : Statistiques :=
  { stats with
    sequence_min := min stats.sequence_min seq
    sequence_max := max stats.sequence_max seq }

/-- Modelled from the spec: delta between consecutive sequence numbers,
treating a decrease as a wraparound of +256 (§4.3). -/
def delta_sequence (prec suiv : Nat) : Nat :=
  if prec ≤ suiv then suiv - prec else suiv + 256 - prec

/-- Modelled from the spec: total sequence span actually traversed —
the accumulated wraparound-aware deltas between consecutive frames. -/
def span_parcouru : List Nat → Nat
  | [] => 0
  | [_] => 0
  | a :: b :: reste => delta_sequence a b + span_parcouru (b :: reste)

/-- Modelled from the spec: number of frames expected over the traversed
span (span + 1 for a non-empty run). -/
def trames_attendues (seqs : List Nat) : Nat :=
  match seqs with
  | [] => 0
  | _ :: _ => span_parcouru seqs + 1

/-- Modelled from the spec: the lost-frame estimate of §4.3 —
`expected_frames_in_span - valid_frames`, never negative. -/
def pertes_estimees (seqs : List Nat) : Int :=
  max 0 ((trames_attendues seqs : Int) - (seqs.length : Int))

-- ============================================================================
-- Motion simulator (simulateur_telemetrie.cpp, lines 45-167)
-- ============================================================================

/-- Per-axis position lower limits (degrees). -/
def POSITION_MIN_DEG (axe : Nat) : ℚ :=
  [(-170 : ℚ), -90, -80, -190, -120, -360].getD axe 0

/-- Per-axis position upper limits (degrees). -/
def POSITION_MAX_DEG (axe : Nat) : ℚ :=
  [(170 : ℚ), 110, 280, 190, 120, 360].getD axe 0

/-- Per-axis maximum velocity magnitudes (degrees/second). -/
def VITESSE_MAX_DEG_S (axe : Nat) : ℚ :=
  [(250 : ℚ), 250, 250, 430, 430, 630].getD axe 0

/-- Per-axis nominal currents (amperes). -/
def COURANT_NOMINAL_A (axe : Nat) : ℚ :=
  [(8 : ℚ), 6, 4, 2, 2, 3 / 2].getD axe 0

/-- `struct EtatAxe` of the simulator. -/
structure EtatAxe where
  position_deg : ℚ
  vitesse_deg_s : ℚ
  position_cible : ℚ
  courant_base_a : ℚ
deriving DecidableEq, Repr

/-- The three pseudo-random draws consumed by one `simuler_axe` tick:
the `uniform_real_distribution(0,1)` draw deciding re-targeting, the value
`nouvelle_cible` would pick, and the `normal_distribution` current noise. -/
structure TiragesAxe where
  tirage_cible : ℚ
  cible_nouvelle : ℚ
  bruit_courant : ℚ
deriving DecidableEq, Repr

/-- Target after the possible re-selection at the head of `simuler_axe`:
when `|cible - position| < 1` and the 2 percent draw fires, the target is
replaced by the freshly drawn one. -/
def cible_apres (t : TiragesAxe) (a : EtatAxe) : ℚ :=
  if |a.position_cible - a.position_deg| < 1 ∧ t.tirage_cible < 2 / 100 then
    t.cible_nouvelle
  else a.position_cible

/-- Desired velocity: proportional gain 2.0 times the position error, then
clamped to `[-v_max, v_max]` by the two successive `if`s of the source. -/
def vitesse_desiree (axe : Nat) (erreur : ℚ) : ℚ :=
  let vd := erreur * 2
  let v_max := VITESSE_MAX_DEG_S axe
  let vd1 := if vd > v_max then v_max else vd
  if vd1 < -v_max then -v_max else vd1

/-- Velocity after the acceleration-limited update: the velocity change is
clamped to `±(2 v_max) dt` and added to the current velocity. -/
def vitesse_apres (axe : Nat) (dt : ℚ) (t : TiragesAxe) (a : EtatAxe) : ℚ :=
  let erreur := cible_apres t a - a.position_deg
  let vd := vitesse_desiree axe erreur
  let acc_max := VITESSE_MAX_DEG_S axe * 2
  let delta_v := vd - a.vitesse_deg_s
  let delta_v_max := acc_max * dt
  let d1 := if delta_v > delta_v_max then delta_v_max else delta_v
  let d2 := if d1 < -delta_v_max then -delta_v_max else d1
  a.vitesse_deg_s + d2

/-- Position after integration (`position += vitesse * dt`), before the
limit-stop clamping. -/
def position_integree (axe : Nat) (dt : ℚ) (t : TiragesAxe) (a : EtatAxe) : ℚ :=
  a.position_deg + vitesse_apres axe dt t a * dt

/-- One `simuler_axe` tick: target re-selection, proportional velocity
control with acceleration limiting, position integration, inelastic limit
stops (position clamped, velocity zeroed on contact), then the current
model (nominal current scaled by the velocity ratio, plus noise, floored
at zero). -/
def simuler_axe (axe : Nat) (dt : ℚ) (t : TiragesAxe) (a : EtatAxe) : EtatAxe :=
  let v1 := vitesse_apres axe dt t a
  let p1 := position_integree axe dt t a
  let p2 := if p1 < POSITION_MIN_DEG axe then POSITION_MIN_DEG axe else p1
  let v2 := if p1 < POSITION_MIN_DEG axe then 0 else v1
  let p3 := if p2 > POSITION_MAX_DEG axe then POSITION_MAX_DEG axe else p2
  let v3 := if p2 > POSITION_MAX_DEG axe then 0 else v2
  let ratio := |v3| / VITESSE_MAX_DEG_S axe
  let c0 := COURANT_NOMINAL_A axe * (1 / 10 + 9 / 10 * ratio)
  let c1 := c0 + t.bruit_courant
  let c2 := if c1 < 0 then 0 else c1
  { position_deg := p3, vitesse_deg_s := v3,
    position_cible := cible_apres t a, courant_base_a := c2 }

-- ============================================================================
-- Example values used by concrete theorems
-- ============================================================================

/-- A frame record with correct sync bytes and all-zero axis data. -/
def trame_exemple : Trame :=
  { sync1 := 0xAA, sync2 := 0x55, sequence := 0,
    axe1 := fun _ => ⟨0, 0, 0⟩, axe2 := fun _ => ⟨0, 0, 0⟩ }

-- ============================================================================
-- Claim theorems
-- ============================================================================

/-- C1: the claim states `est_en_alerte axe seuil = true ↔
courant_en_amperes axe.courant > seuil`, with equality-to-threshold not an
alert.  The code compares the RAW milliampere value against the ampere
threshold: with `courant = 5000` (exactly 5.0 A) and `seuil = 5` the
converted current equals the threshold, so the claim requires `false`, yet
the code returns `true` (`5000 > 5.0`). -/
theorem est_en_alerte_bug_unites :
    est_en_alerte ⟨0, 0, 5000⟩ 5 = true ∧ ¬ courant_en_amperes 5000 > 5 := by
  constructor
  · norm_num [est_en_alerte]
  · norm_num [courant_en_amperes]

/-- C2: the claim states `trame_valide` is true iff the two sync bytes equal
the protocol constants.  The source adds the conjunct `sizeof(trame) == 39`
where `trame` is a pointer (size 8), which never holds, so `trame_valide`
returns `false` even on a frame with correct sync bytes — indeed on every
frame. -/
theorem trame_valide_toujours_faux :
    trame_valide trame_exemple = false ∧ ∀ t : Trame, trame_valide t = false := by
  refine ⟨?_, fun t => ?_⟩ <;> simp [trame_valide, TAILLE_POINTEUR]

/-- C3: the claim states `trouver_sync` accesses only indices strictly below
`taille` and returns −1 on a lone trailing `0xAA`.  Over a 1-byte buffer
`[0xAA]` the loop body reads `buffer[1]`, out of bounds: two memories that
agree on every in-bounds byte (index 0) give different results, and when the
out-of-bounds byte happens to be `0x55` the function returns 0 instead of
the required −1. -/
theorem trouver_sync_depasse_borne :
    trouver_sync memoire_apres_55 1 0 = 0 ∧
    trouver_sync memoire_apres_00 1 0 = -1 ∧
    memoire_apres_55 0 = memoire_apres_00 0 := by
  refine ⟨?_, ?_, ?_⟩ <;> decide

/-- C5: the claim states a decoded frame value holds exactly 6 axis samples
and a wire frame is 39 bytes.  The wire size is indeed 39 (`TAILLE_TRAME`
and the byte assembly of `generer_trame`), but the analyzer's `Trame` struct
declares TWO arrays `axe1[NB_AXES]` and `axe2[NB_AXES]`, so every frame
record holds 12 axis samples, not 6. -/
theorem trame_detient_douze_echantillons :
    trame_exemple.echantillons.length = 12 ∧
    TAILLE_TRAME = 39 ∧
    (generer_trame 0 (List.replicate 6 ⟨0, 0, 0⟩) (-1) 0).length = 39 := by
  refine ⟨?_, rfl, ?_⟩ <;> decide

/-- C7: over the run of sequence numbers 250, 251, …, 255, 0, 1, 2 the
wraparound-aware estimator of §4.3 reports zero estimated loss, while the
naive min/max accumulation (initialised to 255/0 as in `Statistiques`)
reports `sequence_min = 0` and `sequence_max = 255`; and the estimate is
never negative on any run. -/
theorem pertes_estimees_wraparound :
    pertes_estimees [250, 251, 252, 253, 254, 255, 0, 1, 2] = 0 ∧
    (List.foldl maj_sequence {} [250, 251, 252, 253, 254, 255, 0, 1, 2]).sequence_min = 0 ∧
    (List.foldl maj_sequence {} [250, 251, 252, 253, 254, 255, 0, 1, 2]).sequence_max = 255 ∧
    ∀ seqs : List Nat, 0 ≤ pertes_estimees seqs := by
  refine ⟨by decide, by decide, by decide, fun seqs => le_max_left 0 _⟩

-- ============================================================================
-- Codec round-trip lemmas
-- ============================================================================

lemma appliquer_alerte_depuis_neg (al : Int) (c : Nat) (hal : al < 0) :
    ∀ (l : List DonneesAxe) (i : Nat), appliquer_alerte_depuis i al c l = l := by
  intro l
  induction l with
  | nil => intro i; rfl
  | cons a reste ih =>
    intro i
    rw [appliquer_alerte_depuis, ih]
    have : ((i : Int) = al) = False := by
      simp only [eq_iff_iff, iff_false]
      omega
    simp [this]

lemma appliquer_alerte_depuis_longueur (al : Int) (c : Nat) :
    ∀ (l : List DonneesAxe) (i : Nat),
      (appliquer_alerte_depuis i al c l).length = l.length := by
  intro l
  induction l with
  | nil => intro i; rfl
  | cons a reste ih => intro i; rw [appliquer_alerte_depuis]; simp [ih]

lemma appliquer_alerte_depuis_get? (al : Int) (c : Nat) :
    ∀ (l : List DonneesAxe) (i k : Nat),
      (appliquer_alerte_depuis i al c l).get? k =
        (l.get? k).map
          (fun a => if ((i + k : Nat) : Int) = al then { a with courant := c } else a) := by
  intro l
  induction l with
  | nil => intro i k; rfl
  | cons a reste ih =>
    intro i k
    rw [appliquer_alerte_depuis]
    cases k with
    | zero => simp
    | succ k0 =>
      simp only [List.get?_cons_succ]
      rw [ih (i + 1) k0]
      have hind : i + 1 + k0 = i + (k0 + 1) := by omega
      rw [hind]

lemma appliquer_alerte_depuis_representable (al : Int) (c : Nat) (hc : c < 65536) :
    ∀ (l : List DonneesAxe) (i : Nat), (∀ a ∈ l, AxeRepresentable a) →
      ∀ a ∈ appliquer_alerte_depuis i al c l, AxeRepresentable a := by
  intro l
  induction l with
  | nil => intro i _ a ha; simp [appliquer_alerte_depuis] at ha
  | cons x reste ih =>
    intro i hl a ha
    rw [appliquer_alerte_depuis] at ha
    rcases List.mem_cons.mp ha with h | h
    · subst h
      split
      · have hx := hl x (List.mem_cons_self x reste)
        exact ⟨hx.1, hx.2.1, hx.2.2.1, hx.2.2.2.1, hc⟩
      · exact hl x (List.mem_cons_self x reste)
    · exact ih (i + 1) (fun b hb => hl b (List.mem_cons_of_mem x hb)) a h

lemma lire_ecrire_courant (c : Nat) (hc : c < 65536) :
    lire_uint16_le (c % 65536 % 256) (c % 65536 / 256 % 256) = c := by
  unfold lire_uint16_le
  omega

lemma lire_ecrire_signe (p : Int) (h1 : -32768 ≤ p) (h2 : p < 32768) :
    vers_int16 (lire_uint16_le (vers_uint16 p % 256) (vers_uint16 p / 256 % 256)) = p := by
  unfold vers_int16 lire_uint16_le vers_uint16
  split <;> omega

lemma decoder_encoder_liste (seq : Nat) (axes : List DonneesAxe)
    (hlen : axes.length = 6) (hseq : seq < 256)
    (hrep : ∀ a ∈ axes, AxeRepresentable a) :
    decoder_trame ([SYNC_H, SYNC_L, seq % 256] ++ (axes.map encoder_axe).flatten) =
      some ⟨SYNC_H, SYNC_L, seq, axes⟩ := by
  rcases axes with _ | ⟨a1, _ | ⟨a2, _ | ⟨a3, _ | ⟨a4, _ | ⟨a5, _ | ⟨a6, _ | ⟨a7, q⟩⟩⟩⟩⟩⟩⟩ <;>
    simp only [List.length] at hlen <;> try omega
  simp only [List.mem_cons, List.not_mem_nil, or_false, forall_eq_or_imp, forall_eq] at hrep
  obtain ⟨h1, h2, h3, h4, h5, h6⟩ := hrep
  obtain ⟨p1, v1, c1⟩ := a1
  obtain ⟨p2, v2, c2⟩ := a2
  obtain ⟨p3, v3, c3⟩ := a3
  obtain ⟨p4, v4, c4⟩ := a4
  obtain ⟨p5, v5, c5⟩ := a5
  obtain ⟨p6, v6, c6⟩ := a6
  obtain ⟨h1p, h1p2, h1v, h1v2, h1c⟩ := h1
  obtain ⟨h2p, h2p2, h2v, h2v2, h2c⟩ := h2
  obtain ⟨h3p, h3p2, h3v, h3v2, h3c⟩ := h3
  obtain ⟨h4p, h4p2, h4v, h4v2, h4c⟩ := h4
  obtain ⟨h5p, h5p2, h5v, h5v2, h5c⟩ := h5
  obtain ⟨h6p, h6p2, h6v, h6v2, h6c⟩ := h6
  simp only [List.map_cons, List.map_nil, encoder_axe, ecrire_uint16_le,
    List.flatten, List.append_assoc, List.cons_append, List.nil_append,
    decoder_trame, Option.some.injEq, TrameSpec.mk.injEq, List.cons.injEq,
    DonneesAxe.mk.injEq, and_true, List.flatten_nil, List.append_nil]
  simp only [Nat.mod_eq_of_lt hseq, lire_ecrire_signe _ h1p h1p2, lire_ecrire_signe _ h1v h1v2,
    lire_ecrire_courant _ h1c,
    lire_ecrire_signe _ h2p h2p2, lire_ecrire_signe _ h2v h2v2,
    lire_ecrire_courant _ h2c,
    lire_ecrire_signe _ h3p h3p2, lire_ecrire_signe _ h3v h3v2,
    lire_ecrire_courant _ h3c,
    lire_ecrire_signe _ h4p h4p2, lire_ecrire_signe _ h4v h4v2,
    lire_ecrire_courant _ h4c,
    lire_ecrire_signe _ h5p h5p2, lire_ecrire_signe _ h5v h5v2,
    lire_ecrire_courant _ h5c,
    lire_ecrire_signe _ h6p h6p2, lire_ecrire_signe _ h6v h6v2,
    lire_ecrire_courant _ h6c, and_self, true_and, and_true]

lemma decoder_generer (seq : Nat) (axes : List DonneesAxe) (al : Int) (c : Nat)
    (hlen : axes.length = 6) (hseq : seq < 256) (hc : c < 65536)
    (hrep : ∀ a ∈ axes, AxeRepresentable a) :
    decoder_trame (generer_trame seq axes al c) =
      some ⟨SYNC_H, SYNC_L, seq, appliquer_alerte axes al c⟩ := by
  unfold generer_trame
  exact decoder_encoder_liste seq (appliquer_alerte axes al c)
    (by rw [appliquer_alerte, appliquer_alerte_depuis_longueur, hlen]) hseq
    (appliquer_alerte_depuis_representable al c hc axes 0 hrep)

/-- C4: decoding the 39 bytes assembled by `generer_trame` (no alert
injected: `axe_alerte = -1`) recovers the original frame value, for any
frame whose sync bytes are the protocol constants, whose sequence fits 8
bits, and whose 6 axis samples all have 16-bit-representable fields. -/
theorem decodage_inverse_encodage (t : TrameSpec)
    (hs1 : t.sync1 = SYNC_H) (hs2 : t.sync2 = SYNC_L)
    (hseq : t.sequence < 256) (hlen : t.axes.length = 6)
    (hrep : ∀ a ∈ t.axes, AxeRepresentable a) :
    decoder_trame (generer_trame t.sequence t.axes (-1) 0) = some t := by
  rw [decoder_generer t.sequence t.axes (-1) 0 hlen hseq (by omega) hrep]
  rw [appliquer_alerte, appliquer_alerte_depuis_neg (-1) 0 (by omega) t.axes 0]
  obtain ⟨s1, s2, sq, axes⟩ := t
  simp_all

/-- A concrete 6-axis frame exercising both signed extremes and an unsigned
16-bit current. -/
def trame_test : TrameSpec :=
  { sync1 := 0xAA, sync2 := 0x55, sequence := 7,
    axes := [⟨-12345, 500, 6000⟩, ⟨32767, -32768, 65535⟩, ⟨0, 0, 0⟩,
             ⟨1, -1, 1⟩, ⟨100, -10, 4999⟩, ⟨-17000, 2500, 800⟩] }

/-- Witness for C4: the round-trip theorem applied to `trame_test`. -/
theorem decodage_inverse_encodage_temoin :
    trame_test.sequence < 256 ∧ trame_test.axes.length = 6 ∧
    (∀ a ∈ trame_test.axes, AxeRepresentable a) ∧
    decoder_trame (generer_trame trame_test.sequence trame_test.axes (-1) 0) =
      some trame_test :=
  ⟨by decide, by decide, by decide,
    decodage_inverse_encodage trame_test rfl rfl (by decide) (by decide) (by decide)⟩

/-- C10: when `generer_trame` injects a current alert, the overridden raw
current `courant_alerte_de r` comes from the band `[5500, 8000)` mA, so the
frame decoded from the generated bytes carries, on the chosen axis, a
current of at least 5.5 A — strictly above the analyzer's default 5.0 A
threshold. -/
theorem alerte_injectee_declenche (r : ℚ) (seq : Nat) (axes : List DonneesAxe)
    (k : Nat) (hr1 : 5500 ≤ r) (hr2 : r < 8000) (hk : k < 6)
    (hlen : axes.length = 6) (hseq : seq < 256)
    (hrep : ∀ a ∈ axes, AxeRepresentable a) :
    5500 ≤ courant_alerte_de r ∧ courant_alerte_de r < 8000 ∧
    ∃ t : TrameSpec,
      decoder_trame (generer_trame seq axes (k : Int) (courant_alerte_de r)) =
        some t ∧
      ∃ a : DonneesAxe, t.axes.get? k = some a ∧
        a.courant = courant_alerte_de r ∧
        11 / 2 ≤ courant_en_amperes a.courant ∧
        SEUIL_DEFAUT < courant_en_amperes a.courant := by
  have hfloor1 : (5500 : ℤ) ≤ Int.floor r := by
    rw [Int.le_floor]; exact_mod_cast hr1
  have hfloor2 : Int.floor r < 8000 := by
    rw [Int.floor_lt]; exact_mod_cast hr2
  have hc1 : 5500 ≤ courant_alerte_de r := by unfold courant_alerte_de; omega
  have hc2 : courant_alerte_de r < 8000 := by unfold courant_alerte_de; omega
  refine ⟨hc1, hc2, ?_⟩
  refine ⟨⟨SYNC_H, SYNC_L, seq, appliquer_alerte axes (k : Int) (courant_alerte_de r)⟩,
    decoder_generer seq axes (k : Int) (courant_alerte_de r) hlen hseq (by omega) hrep,
    ?_⟩
  have hklen : k < axes.length := by omega
  obtain ⟨a0, ha0⟩ : ∃ a0, axes.get? k = some a0 :=
    ⟨axes.get ⟨k, hklen⟩, List.get?_eq_get hklen⟩
  refine ⟨{ a0 with courant := courant_alerte_de r }, ?_, rfl, ?_, ?_⟩
  · show (appliquer_alerte axes (k : Int) (courant_alerte_de r)).get? k = _
    rw [appliquer_alerte, appliquer_alerte_depuis_get?, ha0]
    simp
  · unfold courant_en_amperes
    have h55 : (5500 : ℚ) ≤ ((courant_alerte_de r : ℚ)) := by exact_mod_cast hc1
    show (11 : ℚ) / 2 ≤ (courant_alerte_de r : ℚ) / 1000
    linarith
  · unfold courant_en_amperes SEUIL_DEFAUT
    have h55 : (5500 : ℚ) ≤ ((courant_alerte_de r : ℚ)) := by exact_mod_cast hc1
    show (5 : ℚ) < (courant_alerte_de r : ℚ) / 1000
    linarith

/-- Witness for C10: the alert-injection theorem at the draw `r = 6000` mA,
axis 2, over an all-zero 6-axis frame. -/
theorem alerte_injectee_declenche_temoin :
    (5500 : ℚ) ≤ 6000 ∧ (6000 : ℚ) < 8000 ∧
    (5500 ≤ courant_alerte_de 6000 ∧ courant_alerte_de 6000 < 8000 ∧
      ∃ t : TrameSpec,
        decoder_trame (generer_trame 0 (List.replicate 6 ⟨0, 0, 0⟩)
          ((2 : Nat) : Int) (courant_alerte_de 6000)) = some t ∧
        ∃ a : DonneesAxe, t.axes.get? 2 = some a ∧
          a.courant = courant_alerte_de 6000 ∧
          11 / 2 ≤ courant_en_amperes a.courant ∧
          SEUIL_DEFAUT < courant_en_amperes a.courant) :=
  ⟨by norm_num, by norm_num,
    alerte_injectee_declenche 6000 0 (List.replicate 6 ⟨0, 0, 0⟩) 2
      (by norm_num) (by norm_num) (by norm_num) (by decide) (by norm_num)
      (by decide)⟩

-- ============================================================================
-- Scan-loop lemmas (claims C6 and C8)
-- ============================================================================

lemma trouver_sync_spec_bruit :
    ∀ l : List Nat, (∀ b ∈ l, b ≠ SYNC_H) → trouver_sync_spec l = none := by
  intro l
  induction l with
  | nil => intro _; rfl
  | cons a reste ih =>
    intro hl
    cases reste with
    | nil => rfl
    | cons b r =>
      rw [trouver_sync_spec]
      have ha : a ≠ SYNC_H := hl a (List.mem_cons_self a (b :: r))
      rw [if_neg (by tauto), ih (fun x hx => hl x (List.mem_cons_of_mem a hx))]
      rfl

lemma trouver_sync_spec_trouve :
    ∀ (bruit : List Nat), (∀ b ∈ bruit, b ≠ SYNC_H) →
      ∀ reste : List Nat,
        trouver_sync_spec (bruit ++ SYNC_H :: SYNC_L :: reste) = some bruit.length := by
  intro bruit
  induction bruit with
  | nil =>
    intro _ reste
    rw [List.nil_append, trouver_sync_spec, if_pos ⟨rfl, rfl⟩]
    rfl
  | cons a br ih =>
    intro hb reste
    have ha : a ≠ SYNC_H := hb a (List.mem_cons_self a br)
    have hbr : ∀ b ∈ br, b ≠ SYNC_H := fun x hx => hb x (List.mem_cons_of_mem a hx)
    cases br with
    | nil =>
      rw [List.cons_append, List.nil_append, trouver_sync_spec, if_neg (by tauto),
        trouver_sync_spec, if_pos ⟨rfl, rfl⟩]
      rfl
    | cons b br2 =>
      rw [List.cons_append, List.cons_append, trouver_sync_spec, if_neg (by tauto)]
      have := ih hbr reste
      rw [List.cons_append] at this
      rw [this]
      rfl

lemma boucle_traitement_none {buf : List Nat}
    (h : trouver_sync_spec buf = none) : boucle_traitement buf = (0, buf.length) := by
  unfold boucle_traitement
  split
  · rfl
  · rename_i s hs
    rw [h] at hs
    cases hs

lemma boucle_traitement_some_assez {buf : List Nat} {s : Nat}
    (h : trouver_sync_spec buf = some s) (h39 : TAILLE_TRAME ≤ buf.length - s) :
    boucle_traitement buf =
      ((boucle_traitement (buf.drop (s + TAILLE_TRAME))).1 + 1,
        s + (boucle_traitement (buf.drop (s + TAILLE_TRAME))).2) := by
  rw [boucle_traitement.eq_def]
  split
  · rename_i hs
    rw [h] at hs
    cases hs
  · rename_i s' hs
    rw [h] at hs
    injection hs with hss
    subst hss
    rw [if_pos h39]

lemma boucle_traitement_some_court {buf : List Nat} {s : Nat}
    (h : trouver_sync_spec buf = some s) (h39 : ¬ TAILLE_TRAME ≤ buf.length - s) :
    boucle_traitement buf = (0, buf.length) := by
  unfold boucle_traitement
  split
  · rfl
  · rename_i s' hs
    rw [h] at hs
    injection hs with hss
    subst hss
    rw [if_neg h39]

lemma comptabilite_boucle :
    ∀ l : List Nat, BonFlux l →
      l.length = (boucle_traitement l).2 + TAILLE_TRAME * (boucle_traitement l).1 := by
  have h39 : TAILLE_TRAME = 39 := rfl
  intro l hl
  induction hl with
  | bruit_seul l hbr =>
    rw [boucle_traitement_none (trouver_sync_spec_bruit l (fun b hb2 => (hbr b hb2).1))]
    simp
  | trame_puis bruit f reste hb hf hf0 hf1 hreste ih =>
    obtain ⟨fa, ftail, rfl⟩ : ∃ fa ftail, f = fa :: ftail := by
      cases f with
      | nil => simp at hf0
      | cons x xs => exact ⟨x, xs, rfl⟩
    obtain ⟨fb, fr, rfl⟩ : ∃ fb fr, ftail = fb :: fr := by
      cases ftail with
      | nil => simp at hf1
      | cons x xs => exact ⟨x, xs, rfl⟩
    simp only [List.get?_cons_zero, List.get?_cons_succ, Option.some.injEq] at hf0 hf1
    subst hf0
    subst hf1
    have hfr : fr.length = 37 := by
      simp only [List.length_cons] at hf
      omega
    simp only [List.cons_append]
    have hsync := trouver_sync_spec_trouve bruit (fun b hb2 => (hb b hb2).1) (fr ++ reste)
    have hcond : TAILLE_TRAME ≤
        (bruit ++ SYNC_H :: SYNC_L :: (fr ++ reste)).length - bruit.length := by
      simp only [List.length_append, List.length_cons]
      omega
    have hassoc : bruit ++ SYNC_H :: SYNC_L :: (fr ++ reste) =
        (bruit ++ SYNC_H :: SYNC_L :: fr) ++ reste := by
      simp
    have hlen2 : (bruit ++ SYNC_H :: SYNC_L :: fr).length =
        bruit.length + TAILLE_TRAME := by
      simp only [List.length_append, List.length_cons]
      omega
    have hdrop : (bruit ++ SYNC_H :: SYNC_L :: (fr ++ reste)).drop
        (bruit.length + TAILLE_TRAME) = reste := by
      rw [hassoc, ← hlen2, List.drop_left]
    rw [boucle_traitement_some_assez hsync hcond, hdrop]
    rw [h39] at ih ⊢
    simp only [List.length_append, List.length_cons]
    omega

/-- C6: the scan loop terminates (it is a total function here) and accounts
for every byte: over any buffer made of well-formed frames separated by
non-sync filler, the final statistics satisfy
`octets_lus = octets_bruit + 39 * trames_valides` exactly. -/
theorem comptabilite_octets (buf : List Nat) (h : BonFlux buf) :
    (analyser_flux buf).octets_lus =
      (analyser_flux buf).octets_bruit +
        TAILLE_TRAME * (analyser_flux buf).trames_valides := by
  simpa [analyser_flux] using comptabilite_boucle buf h

/-- A concrete stream: 2 filler bytes, one 39-byte frame, 1 filler byte. -/
def flux_exemple : List Nat :=
  [1, 2] ++ ((SYNC_H :: SYNC_L :: List.replicate 37 0) ++ [3])

/-- Witness for C6: the accounting theorem on `flux_exemple`. -/
theorem comptabilite_octets_temoin :
    BonFlux flux_exemple ∧
    (analyser_flux flux_exemple).octets_lus =
      (analyser_flux flux_exemple).octets_bruit +
        TAILLE_TRAME * (analyser_flux flux_exemple).trames_valides := by
  have hbf : BonFlux flux_exemple :=
    BonFlux.trame_puis [1, 2] (SYNC_H :: SYNC_L :: List.replicate 37 0) [3]
      (by decide) (by decide) (by decide) (by decide)
      (BonFlux.bruit_seul [3] (by decide))
  exact ⟨hbf, comptabilite_octets flux_exemple hbf⟩

/-- C8: when fewer than 39 bytes remain from the sync offset, frame
extraction reports insufficient data (`none`, never a partially populated
frame), and the scan loop stops there, classifying all remaining bytes as
noise and producing no further frame. -/
theorem extraction_donnees_insuffisantes :
    (∀ (buf : List Nat) (off : Nat), buf.length - off < TAILLE_TRAME →
      extraire_trame buf off = none) ∧
    (∀ (buf : List Nat) (s : Nat), trouver_sync_spec buf = some s →
      buf.length - s < TAILLE_TRAME → boucle_traitement buf = (0, buf.length)) := by
  constructor
  · intro buf off hoff
    rw [extraire_trame, if_pos hoff]
  · intro buf s hs hcourt
    exact boucle_traitement_some_court hs (by omega)

/-- Witness for C8: a 38-byte buffer yields `none` from `extraire_trame`,
and a buffer holding just the two sync bytes makes the scan loop stop with
zero frames and both bytes counted as noise. -/
theorem extraction_donnees_insuffisantes_temoin :
    extraire_trame (List.replicate 38 0) 0 = none ∧
    boucle_traitement [0xAA, 0x55] = (0, 2) :=
  ⟨extraction_donnees_insuffisantes.1 (List.replicate 38 0) 0 (by decide),
    extraction_donnees_insuffisantes.2 [0xAA, 0x55] 0 (by decide) (by decide)⟩

-- ============================================================================
-- Motion-simulator invariant (claim C9)
-- ============================================================================

lemma limites_axes (axe : Nat) (h : axe < 6) :
    POSITION_MIN_DEG axe ≤ POSITION_MAX_DEG axe ∧ 0 < VITESSE_MAX_DEG_S axe := by
  interval_cases axe <;> exact ⟨by decide, by decide⟩

lemma vitesse_desiree_bornee (axe : Nat) (erreur : ℚ)
    (hvmax : 0 ≤ VITESSE_MAX_DEG_S axe) :
    -VITESSE_MAX_DEG_S axe ≤ vitesse_desiree axe erreur ∧
      vitesse_desiree axe erreur ≤ VITESSE_MAX_DEG_S axe := by
  simp only [vitesse_desiree]
  split_ifs <;> constructor <;> linarith

lemma vitesse_apres_bornee (axe : Nat) (dt : ℚ) (t : TiragesAxe) (a : EtatAxe)
    (hdt : 0 ≤ dt) (hvmax : 0 < VITESSE_MAX_DEG_S axe)
    (hv : |a.vitesse_deg_s| ≤ VITESSE_MAX_DEG_S axe) :
    |vitesse_apres axe dt t a| ≤ VITESSE_MAX_DEG_S axe := by
  have hd := vitesse_desiree_bornee axe (cible_apres t a - a.position_deg)
    (le_of_lt hvmax)
  have hdvmax : 0 ≤ VITESSE_MAX_DEG_S axe * 2 * dt := by positivity
  rw [abs_le] at hv ⊢
  simp only [vitesse_apres]
  split_ifs <;> constructor <;> linarith [hd.1, hd.2]

/-- C9: one `simuler_axe` tick preserves the per-axis state invariant: the
new position lies within the axis's configured `[min, max]` range, the new
velocity magnitude never exceeds the axis's configured maximum (given that
it did before the tick) and is zeroed whenever the integrated position hit
a limit stop, and the base current is floored at zero. -/
theorem simuler_axe_invariant (axe : Nat) (dt : ℚ) (t : TiragesAxe) (a : EtatAxe)
    (haxe : axe < 6) (hdt : 0 ≤ dt)
    (hv : |a.vitesse_deg_s| ≤ VITESSE_MAX_DEG_S axe) :
    POSITION_MIN_DEG axe ≤ (simuler_axe axe dt t a).position_deg ∧
    (simuler_axe axe dt t a).position_deg ≤ POSITION_MAX_DEG axe ∧
    |(simuler_axe axe dt t a).vitesse_deg_s| ≤ VITESSE_MAX_DEG_S axe ∧
    ((position_integree axe dt t a < POSITION_MIN_DEG axe ∨
        POSITION_MAX_DEG axe < position_integree axe dt t a) →
      (simuler_axe axe dt t a).vitesse_deg_s = 0) ∧
    0 ≤ (simuler_axe axe dt t a).courant_base_a := by
  obtain ⟨hmm, hvmax⟩ := limites_axes axe haxe
  have hva := vitesse_apres_bornee axe dt t a hdt hvmax hv
  have habs0 : |(0 : ℚ)| ≤ VITESSE_MAX_DEG_S axe := by
    rw [abs_zero]; exact le_of_lt hvmax
  simp only [simuler_axe]
  split_ifs with h1 h2 h3 h4 h5 h6 h7 <;>
    refine ⟨?_, ?_, ?_, ?_, ?_⟩ <;>
    first
      | exact habs0
      | exact hva
      | linarith
      | (intro hcontact; first | rfl | (rcases hcontact with hc | hc <;> linarith))

/-- A concrete pre-tick axis state: at rest at 0°, target 50°, nominal
resting current. -/
def etat_test : EtatAxe :=
  { position_deg := 0, vitesse_deg_s := 0, position_cible := 50,
    courant_base_a := 4 / 5 }

/-- A concrete draw triple: no re-targeting (draw 1 ≥ 0.02), fresh target 0,
current noise −2 A (forcing the floor-at-zero branch to matter). -/
def tirages_test : TiragesAxe :=
  { tirage_cible := 1, cible_nouvelle := 0, bruit_courant := -2 }

/-- Witness for C9: the invariant theorem at axis 0, `dt = 1/100`,
`tirages_test` and `etat_test`. -/
theorem simuler_axe_invariant_temoin :
    (0 : Nat) < 6 ∧ (0 : ℚ) ≤ 1 / 100 ∧
    |etat_test.vitesse_deg_s| ≤ VITESSE_MAX_DEG_S 0 ∧
    (POSITION_MIN_DEG 0 ≤ (simuler_axe 0 (1 / 100) tirages_test etat_test).position_deg ∧
      (simuler_axe 0 (1 / 100) tirages_test etat_test).position_deg ≤ POSITION_MAX_DEG 0 ∧
      |(simuler_axe 0 (1 / 100) tirages_test etat_test).vitesse_deg_s| ≤ VITESSE_MAX_DEG_S 0 ∧
      ((position_integree 0 (1 / 100) tirages_test etat_test < POSITION_MIN_DEG 0 ∨
          POSITION_MAX_DEG 0 < position_integree 0 (1 / 100) tirages_test etat_test) →
        (simuler_axe 0 (1 / 100) tirages_test etat_test).vitesse_deg_s = 0) ∧
      0 ≤ (simuler_axe 0 (1 / 100) tirages_test etat_test).courant_base_a) :=
  ⟨by decide, by norm_num, by decide,
    simuler_axe_invariant 0 (1 / 100) tirages_test etat_test
      (by decide) (by norm_num) (by decide)⟩
